import Mathlib

/-!
Verification of `art/defences/detector/evasion/binary_detector.py`
(Adversarial Robustness Toolbox).

The module defines two thin wrapper classes, `BinaryInputDetector` and
`BinaryActivationDetector`.  Both delegate all learning and inference to
injected classifier objects and only perform argument validation and an
argmax-based post-processing step.

Embedding conventions:
* numeric score arrays are `List (List ℚ)` (rows = samples);
* the injected duck-typed classifier is a structure of function fields,
  each returning `Except ε _` to model Python exceptions;
* methods are embedded in state-passing style: a method on `self`
  returns the post-call value of `self` together with its result, so
  that absence of mutation is a provable statement;
* `BinaryActivationDetector.detect` additionally returns the ordered
  list of calls it makes on the injected classifiers, so that call
  ordering ("activations are extracted before prediction") is provable.
-/

/-- A score matrix: one row of per-class scores per sample. -/
abbrev Mat : Type := List (List ℚ)

/-- Auxiliary loop for `np.argmax` over one row: `best` is the index of the
running maximum `bestVal`, `i` the index of the head of the remaining list.
NumPy returns the first index attaining the maximum, so a later element
replaces the running maximum only when strictly greater. -/
def npArgmaxAux (best : Nat) (bestVal : ℚ) (i : Nat) : List ℚ → Nat
  | [] => best
  | a :: rest =>
      if bestVal < a then npArgmaxAux i a (i + 1) rest
      else npArgmaxAux best bestVal (i + 1) rest

/-- `np.argmax` of a single row: index of the first maximal element
(`0` on an empty row, which NumPy would reject). -/
def npArgmaxRow : List ℚ → Nat
  | [] => 0
  | a :: rest => npArgmaxAux 0 a 1 rest

/-- `np.argmax(predictions, axis=1)`: per-row first-maximum index. -/
def npArgmaxAxis1 (m : Mat) : List Nat :=
  m.map npArgmaxRow

/-- `.astype(bool)` on an integer vector: nonzero becomes `true`. -/
def astypeBool (v : List Nat) : List Bool :=
  v.map (fun n => n != 0)

/-- Shallow embedding of the duck-typed `ClassifierNeuralNetwork`
collaborator: an object exposing `fit`, `predict`, `get_activations` and
the `layer_names` property.  `α` is the input sample type, `β` the
activation sample type, `ε` the type of raised errors.  The internal
trained state of the classifier is opaque to the wrapper module, so the
methods are modelled as pure `Except`-valued functions. -/
structure ClassifierNeuralNetwork (α β ε : Type) where
  layer_names : Option (List String)
  fit : List α → Mat → Nat → Nat → Except ε Unit
  predict : List α → Nat → Except ε Mat
  get_activations : List α → String → Nat → Except ε (List β)

/-- `BinaryInputDetector`: wraps a single detector classifier operating
directly on input samples. -/
structure BinaryInputDetector (α β ε : Type) where
  detector : ClassifierNeuralNetwork α β ε

/-- `BinaryInputDetector.fit`: delegates directly to the `fit` of the detector.
First component: the post-call value of `self`. -/
def BinaryInputDetector.fit {α β ε : Type} (self : BinaryInputDetector α β ε)
    (x : List α) (y : Mat) (batch_size nb_epochs : Nat) :
    BinaryInputDetector α β ε × Except ε Unit :=
  (self, self.detector.fit x y batch_size nb_epochs)

/-- `BinaryInputDetector.detect`:
`predictions = self.detector.predict(x, batch_size=batch_size)`;
`is_adversarial = np.argmax(predictions, axis=1).astype(bool)`;
`report = {"predictions": predictions}`; returns `(report, is_adversarial)`.
First component: the post-call value of `self`. -/
def BinaryInputDetector.detect {α β ε : Type} (self : BinaryInputDetector α β ε)
    (x : List α) (batch_size : Nat) :
    BinaryInputDetector α β ε × Except ε (List (String × Mat) × List Bool) :=
  (self,
    match self.detector.predict x batch_size with
    | .error e => .error e
    | .ok predictions =>
        .ok ([("predictions", predictions)],
             astypeBool (npArgmaxAxis1 predictions)))

/-- A layer reference: integer index or name string (`Union[int, str]`). -/
inductive LayerRef : Type where
  | idx (i : Int)
  | name (s : String)

/-- The `ValueError`s raised by `BinaryActivationDetector.__init__`:
"No layer names identified.";
"Layer index ... is outside of range (0 to ... included)." with the offending
index and the maximal valid index; "Layer name ... is not part of the graph."
with the offending name. -/
inductive ValueError : Type where
  | noLayerNames
  | layerIndexOutOfRange (layer maxIncluded : Int)
  | layerNameNotInGraph (layer : String)
deriving DecidableEq

/-- `BinaryActivationDetector`: wraps a feature-extracting classifier and a
detector classifier, plus the layer name resolved at construction. -/
structure BinaryActivationDetector (α β γ ε : Type) where
  classifier : ClassifierNeuralNetwork α β ε
  detector : ClassifierNeuralNetwork β γ ε
  _layer_name : String

/-- `BinaryActivationDetector.__init__`: stores both classifiers, then
validates the layer reference against `classifier.layer_names` and resolves
the layer name, raising a `ValueError` otherwise. -/
def BinaryActivationDetector.init {α β γ ε : Type}
    (classifier : ClassifierNeuralNetwork α β ε)
    (detector : ClassifierNeuralNetwork β γ ε) (layer : LayerRef) :
    Except ValueError (BinaryActivationDetector α β γ ε) :=
  match h : classifier.layer_names with
  | none => .error .noLayerNames
  | some names =>
      match layer with
      | .idx i =>
          if h2 : i < 0 ∨ (names.length : Int) ≤ i then
            .error (.layerIndexOutOfRange i ((names.length : Int) - 1))
          else
            .ok ⟨classifier, detector, names.get ⟨i.toNat, by omega⟩⟩
      | .name s =>
          if s ∈ names then
            .ok ⟨classifier, detector, s⟩
          else
            .error (.layerNameNotInGraph s)

/-- The calls a wrapper method makes on its injected classifiers, in order. -/
inductive DetectorCall : Type where
  | getActivationsCall (layer : String)
  | predictCall
  | fitCall
deriving DecidableEq

/-- `BinaryActivationDetector.fit`: computes
`x_activations = self.classifier.get_activations(x, self._layer_name, batch_size)`
then delegates to `self.detector.fit(x_activations, y, ...)`.
First component: the post-call value of `self`. -/
def BinaryActivationDetector.fit {α β γ ε : Type}
    (self : BinaryActivationDetector α β γ ε)
    (x : List α) (y : Mat) (batch_size nb_epochs : Nat) :
    BinaryActivationDetector α β γ ε × Except ε Unit :=
  (self,
    match self.classifier.get_activations x self._layer_name batch_size with
    | .error e => .error e
    | .ok x_activations => self.detector.fit x_activations y batch_size nb_epochs)

/-- `BinaryActivationDetector.detect`: computes
`x_activations = self.classifier.get_activations(x, self._layer_name, batch_size)`,
then `predictions = self.detector.predict(x_activations, batch_size=batch_size)`,
then the same argmax post-processing and report as the input detector.
First component: the post-call value of `self`; second component: the ordered
list of calls made on the injected classifiers. -/
def BinaryActivationDetector.detect {α β γ ε : Type}
    (self : BinaryActivationDetector α β γ ε)
    (x : List α) (batch_size : Nat) :
    BinaryActivationDetector α β γ ε × List DetectorCall ×
      Except ε (List (String × Mat) × List Bool) :=
  (self,
    match self.classifier.get_activations x self._layer_name batch_size with
    | .error e => ([.getActivationsCall self._layer_name], .error e)
    | .ok x_activations =>
        match self.detector.predict x_activations batch_size with
        | .error e =>
            ([.getActivationsCall self._layer_name, .predictCall], .error e)
        | .ok predictions =>
            ([.getActivationsCall self._layer_name, .predictCall],
             .ok ([("predictions", predictions)],
                  astypeBool (npArgmaxAxis1 predictions))))

/-! ### Helper lemmas -/

/-- `np.argmax` on a two-element row is `1` exactly when the second entry
strictly exceeds the first (first index wins ties). -/
theorem npArgmaxRow_pair (a b : ℚ) :
    npArgmaxRow [a, b] = if a < b then 1 else 0 := by
  by_cases h : a < b <;> simp [npArgmaxRow, npArgmaxAux, h]

/-- The argmax post-processing, expressed row-wise. -/
theorem astypeBool_npArgmaxAxis1 (m : Mat) :
    astypeBool (npArgmaxAxis1 m) = m.map (fun r => npArgmaxRow r != 0) := by
  simp [astypeBool, npArgmaxAxis1, List.map_map, Function.comp]

/-! ### Concrete collaborators used to instantiate the theorems -/

/-- A stub injected classifier with fixed layer names and fixed method
results, used to evaluate the wrappers on concrete inputs. -/
def stubClassifier (names : Option (List String)) (fitR : Except String Unit)
    (predictR : Except String Mat) (actR : Except String (List Unit)) :
    ClassifierNeuralNetwork Unit Unit String :=
  ⟨names, fun _ _ _ _ => fitR, fun _ _ => predictR, fun _ _ _ => actR⟩

/-- The three-sample spec example: two-column score example. -/
def stubM : Mat := [[9/10, 1/10], [2/10, 8/10], [5/10, 5/10]]

/-- An input-space detector whose injected classifier predicts `stubM`. -/
def stubInputDetector : BinaryInputDetector Unit Unit String :=
  ⟨stubClassifier none (.ok ()) (.ok stubM) (.ok [])⟩

/-- A feature extractor with layers `["a", "b", "c"]`. -/
def stubExtractor : ClassifierNeuralNetwork Unit Unit String :=
  stubClassifier (some ["a", "b", "c"]) (.ok ()) (.ok []) (.ok [()])

/-- A detector classifier predicting `stubM` on activations. -/
def stubActDetectorClf : ClassifierNeuralNetwork Unit Unit String :=
  stubClassifier none (.ok ()) (.ok stubM) (.ok [])

/-- An activation-space detector built from the stubs, resolved at `"b"`. -/
def stubActDetector : BinaryActivationDetector Unit Unit Unit String :=
  ⟨stubExtractor, stubActDetectorClf, "b"⟩

/-- An input-space detector whose classifier raises on `fit` and `predict`. -/
def stubErrInputDetector : BinaryInputDetector Unit Unit String :=
  ⟨stubClassifier none (.error "fit boom") (.error "pred boom") (.ok [])⟩

/-- An activation-space detector whose extractor raises on activation
extraction. -/
def stubErrActExtractor : BinaryActivationDetector Unit Unit Unit String :=
  ⟨stubClassifier (some ["a"]) (.ok ()) (.ok []) (.error "act boom"),
   stubActDetectorClf, "a"⟩

/-- An activation-space detector whose extractor succeeds but whose detector
classifier raises on `fit` and `predict`. -/
def stubErrActDetector : BinaryActivationDetector Unit Unit Unit String :=
  ⟨stubClassifier (some ["a"]) (.ok ()) (.ok []) (.ok [()]),
   stubClassifier none (.error "fit boom") (.error "pred boom") (.ok []),
   "a"⟩

/-- An input-space detector whose classifier predicts a three-column row
whose argmax is `2`. -/
def stubThreeColDetector : BinaryInputDetector Unit Unit String :=
  ⟨stubClassifier none (.ok ()) (.ok [[1/10, 2/10, 7/10]]) (.ok [])⟩

/-! ### Claim theorems -/

/-- C3: for every feature extractor whose `layer_names` is non-`None` and
every integer layer index in `[0, len(layer_names)-1]`, construction of the
activation-space detector succeeds, and the object stores exactly the two
classifiers and the layer name `layer_names[index]`. -/
theorem init_valid_index_resolves {α β γ ε : Type}
    (classifier : ClassifierNeuralNetwork α β ε)
    (detector : ClassifierNeuralNetwork β γ ε)
    (names : List String) (hn : classifier.layer_names = some names)
    (i : Nat) (hi : i < names.length) :
    BinaryActivationDetector.init classifier detector (.idx i) =
      .ok ⟨classifier, detector, names.get ⟨i, hi⟩⟩ := by
  have h2 : ¬((i : Int) < 0 ∨ (names.length : Int) ≤ (i : Int)) := by omega
  unfold BinaryActivationDetector.init
  rw [hn]
  simp only [dif_neg h2]
  congr 1

/-- C3 witness: index `1` into `["a", "b", "c"]` resolves to `"b"`. -/
theorem init_valid_index_resolves_witness :
    BinaryActivationDetector.init stubExtractor stubActDetectorClf (.idx 1) =
      .ok ⟨stubExtractor, stubActDetectorClf, "b"⟩ :=
  init_valid_index_resolves stubExtractor stubActDetectorClf
    ["a", "b", "c"] rfl 1 (by decide)

/-- C4: constructing the activation-space detector with an integer index
outside `[0, len(layer_names)-1]` fails with the range error and produces no
object. -/
theorem init_out_of_range_index_fails {α β γ ε : Type}
    (classifier : ClassifierNeuralNetwork α β ε)
    (detector : ClassifierNeuralNetwork β γ ε)
    (names : List String) (hn : classifier.layer_names = some names)
    (i : Int) (hi : i < 0 ∨ (names.length : Int) ≤ i) :
    BinaryActivationDetector.init classifier detector (.idx i) =
      .error (.layerIndexOutOfRange i ((names.length : Int) - 1)) := by
  unfold BinaryActivationDetector.init
  rw [hn]
  simp only [dif_pos hi]

/-- C4 witness: with layers `["a", "b", "c"]`, index `3 = len` and index
`-1` both fail with the range error naming the valid range `0..2`. -/
theorem init_out_of_range_index_fails_witness :
    (BinaryActivationDetector.init stubExtractor stubActDetectorClf (.idx 3) =
      .error (.layerIndexOutOfRange 3 2)) ∧
    (BinaryActivationDetector.init stubExtractor stubActDetectorClf
        (.idx (-1)) = .error (.layerIndexOutOfRange (-1) 2)) :=
  ⟨init_out_of_range_index_fails stubExtractor stubActDetectorClf
      ["a", "b", "c"] rfl 3 (by decide),
   init_out_of_range_index_fails stubExtractor stubActDetectorClf
      ["a", "b", "c"] rfl (-1) (by decide)⟩

/-- C5: with a name-string layer reference, construction succeeds and stores
that name when it occurs in `layer_names`, and fails with the
"not part of the graph" error when it does not. -/
theorem init_layer_name_resolution {α β γ ε : Type}
    (classifier : ClassifierNeuralNetwork α β ε)
    (detector : ClassifierNeuralNetwork β γ ε)
    (names : List String) (hn : classifier.layer_names = some names)
    (s : String) :
    (s ∈ names →
      BinaryActivationDetector.init classifier detector (.name s) =
        .ok ⟨classifier, detector, s⟩) ∧
    (s ∉ names →
      BinaryActivationDetector.init classifier detector (.name s) =
        .error (.layerNameNotInGraph s)) := by
  unfold BinaryActivationDetector.init
  rw [hn]
  constructor
  · intro hs
    simp only [if_pos hs]
  · intro hs
    simp only [if_neg hs]

/-- C5 witness: `"b"` is accepted and resolved to itself; `"z"` is rejected
with the "not part of the graph" error. -/
theorem init_layer_name_resolution_witness :
    (BinaryActivationDetector.init stubExtractor stubActDetectorClf
        (.name "b") = .ok ⟨stubExtractor, stubActDetectorClf, "b"⟩) ∧
    (BinaryActivationDetector.init stubExtractor stubActDetectorClf
        (.name "z") = .error (.layerNameNotInGraph "z")) :=
  ⟨(init_layer_name_resolution stubExtractor stubActDetectorClf
      ["a", "b", "c"] rfl "b").1 (by decide),
   (init_layer_name_resolution stubExtractor stubActDetectorClf
      ["a", "b", "c"] rfl "z").2 (by decide)⟩

/-- C6: when the `layer_names` of the feature extractor is `None`, construction
fails with the missing-layer-names configuration error for every layer
argument, integer or name. -/
theorem init_no_layer_names_fails {α β γ ε : Type}
    (classifier : ClassifierNeuralNetwork α β ε)
    (detector : ClassifierNeuralNetwork β γ ε)
    (hn : classifier.layer_names = none) (layer : LayerRef) :
    BinaryActivationDetector.init classifier detector layer =
      .error .noLayerNames := by
  unfold BinaryActivationDetector.init
  rw [hn]

/-- C6 witness: a classifier without layer names is rejected both for an
integer reference and for a name reference. -/
theorem init_no_layer_names_fails_witness :
    (BinaryActivationDetector.init stubActDetectorClf stubActDetectorClf
        (.idx 0) = .error .noLayerNames) ∧
    (BinaryActivationDetector.init stubActDetectorClf stubActDetectorClf
        (.name "a") = .error .noLayerNames) :=
  ⟨init_no_layer_names_fails stubActDetectorClf stubActDetectorClf rfl (.idx 0),
   init_no_layer_names_fails stubActDetectorClf stubActDetectorClf rfl
      (.name "a")⟩

/-- C1: on either detector, when the `predict` of the injected detector returns a
two-column score matrix, `is_adversarial` has one boolean per sample and
`is_adversarial[i]` is `decide (col0 < col1)`: `true` when column 1 strictly
exceeds column 0, `false` when column 0 strictly exceeds column 1, and
`false` on an exact tie (argmax ties resolve to index 0). -/
theorem detect_two_class_decision {α β γ ε : Type} :
    (∀ (d : BinaryInputDetector α β ε) (x : List α) (bs : Nat) (m : Mat),
      d.detector.predict x bs = .ok m →
      (∀ r ∈ m, r.length = 2) →
      ∃ report isadv,
        (d.detect x bs).2 = .ok (report, isadv) ∧
        isadv.length = m.length ∧
        ∀ (i : Nat) (a b : ℚ), m[i]? = some [a, b] →
          isadv[i]? = some (decide (a < b))) ∧
    (∀ (d : BinaryActivationDetector α β γ ε) (x : List α) (bs : Nat)
        (acts : List β) (m : Mat),
      d.classifier.get_activations x d._layer_name bs = .ok acts →
      d.detector.predict acts bs = .ok m →
      (∀ r ∈ m, r.length = 2) →
      ∃ report isadv,
        (d.detect x bs).2.2 = .ok (report, isadv) ∧
        isadv.length = m.length ∧
        ∀ (i : Nat) (a b : ℚ), m[i]? = some [a, b] →
          isadv[i]? = some (decide (a < b))) := by
  have key : ∀ (m : Mat) (i : Nat) (a b : ℚ), m[i]? = some [a, b] →
      (astypeBool (npArgmaxAxis1 m))[i]? = some (decide (a < b)) := by
    intro m i a b hi
    rw [astypeBool_npArgmaxAxis1, List.getElem?_map, hi]
    by_cases hab : a < b <;> simp [npArgmaxRow_pair, hab]
  have len : ∀ m : Mat, (astypeBool (npArgmaxAxis1 m)).length = m.length := by
    intro m
    simp [astypeBool, npArgmaxAxis1]
  constructor
  · intro d x bs m hp _
    exact ⟨[("predictions", m)], astypeBool (npArgmaxAxis1 m),
      by simp [BinaryInputDetector.detect, hp], len m, key m⟩
  · intro d x bs acts m ha hp _
    exact ⟨[("predictions", m)], astypeBool (npArgmaxAxis1 m),
      by simp [BinaryActivationDetector.detect, ha, hp], len m, key m⟩

/-- C1 witness: on the spec example scores
`[[0.9, 0.1], [0.2, 0.8], [0.5, 0.5]]` the input-space detector reports
`is_adversarial = [false, true, false]`, and every sample satisfies the
column-comparison rule. -/
theorem detect_two_class_decision_witness :
    ((stubInputDetector.detect [(), (), ()] 128).2 =
      .ok ([("predictions", stubM)], [false, true, false])) ∧
    (∃ report isadv,
      (stubInputDetector.detect [(), (), ()] 128).2 = .ok (report, isadv) ∧
      isadv.length = stubM.length ∧
      ∀ (i : Nat) (a b : ℚ), stubM[i]? = some [a, b] →
        isadv[i]? = some (decide (a < b))) :=
  ⟨by
     simp only [stubInputDetector, stubClassifier, stubM,
       BinaryInputDetector.detect]
     norm_num [astypeBool, npArgmaxAxis1, npArgmaxRow, npArgmaxAux],
   (@detect_two_class_decision Unit Unit Unit String).1 stubInputDetector
     [(), (), ()] 128 stubM rfl (by decide)⟩

/-- C2: on either detector, the report returned by `detect` is a mapping
with exactly one entry, keyed `"predictions"`, whose value is exactly the
raw matrix returned by the `predict` of the injected detector call. -/
theorem detect_report_is_raw_predictions {α β γ ε : Type} :
    (∀ (d : BinaryInputDetector α β ε) (x : List α) (bs : Nat) (m : Mat),
      d.detector.predict x bs = .ok m →
      ∃ isadv, (d.detect x bs).2 = .ok ([("predictions", m)], isadv)) ∧
    (∀ (d : BinaryActivationDetector α β γ ε) (x : List α) (bs : Nat)
        (acts : List β) (m : Mat),
      d.classifier.get_activations x d._layer_name bs = .ok acts →
      d.detector.predict acts bs = .ok m →
      ∃ isadv, (d.detect x bs).2.2 = .ok ([("predictions", m)], isadv)) := by
  constructor
  · intro d x bs m hp
    exact ⟨astypeBool (npArgmaxAxis1 m), by simp [BinaryInputDetector.detect, hp]⟩
  · intro d x bs acts m ha hp
    exact ⟨astypeBool (npArgmaxAxis1 m),
      by simp [BinaryActivationDetector.detect, ha, hp]⟩

/-- C2 witness: the report of the stub input detector is the one-entry mapping
holding the raw `stubM`. -/
theorem detect_report_is_raw_predictions_witness :
    ∃ isadv, (stubInputDetector.detect [(), (), ()] 128).2 =
      .ok ([("predictions", stubM)], isadv) :=
  (@detect_report_is_raw_predictions Unit Unit Unit String).1 stubInputDetector
    [(), (), ()] 128 stubM rfl

/-- C7: every `BinaryActivationDetector.detect` call first invokes activation
extraction on `x` at the layer name resolved at construction; when that call
succeeds with `acts`, the only further call is `predict`, invoked after it,
and `predict` is applied to exactly those activations (not to the raw `x`),
its result giving the report and decision vector. -/
theorem detect_activations_before_predict {α β γ ε : Type}
    (d : BinaryActivationDetector α β γ ε) (x : List α) (bs : Nat) :
    ((d.detect x bs).2.1.head? =
      some (.getActivationsCall d._layer_name)) ∧
    (∀ acts, d.classifier.get_activations x d._layer_name bs = .ok acts →
      (d.detect x bs).2.1 =
        [.getActivationsCall d._layer_name, .predictCall] ∧
      ∀ m, d.detector.predict acts bs = .ok m →
        (d.detect x bs).2.2 =
          .ok ([("predictions", m)], astypeBool (npArgmaxAxis1 m))) := by
  constructor
  · rcases ha : d.classifier.get_activations x d._layer_name bs with e | acts
    · simp [BinaryActivationDetector.detect, ha]
    · rcases hp : d.detector.predict acts bs with e | m <;>
        simp [BinaryActivationDetector.detect, ha, hp]
  · intro acts ha
    constructor
    · rcases hp : d.detector.predict acts bs with e | m <;>
        simp [BinaryActivationDetector.detect, ha, hp]
    · intro m hp
      simp [BinaryActivationDetector.detect, ha, hp]

/-- C7 witness: the stub activation detector extracts activations at its
resolved layer `"b"` first, then predicts on them. -/
theorem detect_activations_before_predict_witness :
    ((stubActDetector.detect [()] 128).2.1.head? =
      some (.getActivationsCall "b")) ∧
    (∀ acts, stubActDetector.classifier.get_activations [()] "b" 128 =
        .ok acts →
      (stubActDetector.detect [()] 128).2.1 =
        [.getActivationsCall "b", .predictCall] ∧
      ∀ m, stubActDetector.detector.predict acts 128 = .ok m →
        (stubActDetector.detect [()] 128).2.2 =
          .ok ([("predictions", m)], astypeBool (npArgmaxAxis1 m))) :=
  detect_activations_before_predict stubActDetector [()] 128

/-- C8: on either detector, an error raised by the injected classifier
training, prediction, or activation-extraction call surfaces to the caller
as exactly the same error, and the failing `fit`/`detect` call returns an
error instead of any (partial) report. -/
theorem delegated_errors_propagate {α β γ ε : Type} :
    (∀ (d : BinaryInputDetector α β ε) (x : List α) (y : Mat) (bs ne : Nat)
        (e : ε), d.detector.fit x y bs ne = .error e →
      (d.fit x y bs ne).2 = .error e) ∧
    (∀ (d : BinaryInputDetector α β ε) (x : List α) (bs : Nat) (e : ε),
      d.detector.predict x bs = .error e →
      (d.detect x bs).2 = .error e) ∧
    (∀ (d : BinaryActivationDetector α β γ ε) (x : List α) (y : Mat)
        (bs ne : Nat) (e : ε),
      d.classifier.get_activations x d._layer_name bs = .error e →
      (d.fit x y bs ne).2 = .error e) ∧
    (∀ (d : BinaryActivationDetector α β γ ε) (x : List α) (y : Mat)
        (bs ne : Nat) (acts : List β) (e : ε),
      d.classifier.get_activations x d._layer_name bs = .ok acts →
      d.detector.fit acts y bs ne = .error e →
      (d.fit x y bs ne).2 = .error e) ∧
    (∀ (d : BinaryActivationDetector α β γ ε) (x : List α) (bs : Nat) (e : ε),
      d.classifier.get_activations x d._layer_name bs = .error e →
      (d.detect x bs).2.2 = .error e) ∧
    (∀ (d : BinaryActivationDetector α β γ ε) (x : List α) (bs : Nat)
        (acts : List β) (e : ε),
      d.classifier.get_activations x d._layer_name bs = .ok acts →
      d.detector.predict acts bs = .error e →
      (d.detect x bs).2.2 = .error e) := by
  refine ⟨?_, ?_, ?_, ?_, ?_, ?_⟩
  · intro d x y bs ne e h
    simp [BinaryInputDetector.fit, h]
  · intro d x bs e h
    simp [BinaryInputDetector.detect, h]
  · intro d x y bs ne e h
    simp [BinaryActivationDetector.fit, h]
  · intro d x y bs ne acts e ha h
    simp [BinaryActivationDetector.fit, ha, h]
  · intro d x bs e h
    simp [BinaryActivationDetector.detect, h]
  · intro d x bs acts e ha h
    simp [BinaryActivationDetector.detect, ha, h]

/-- C8 witness: each of the six delegated-error paths, instantiated on stub
classifiers that raise, surfaces the error value of the stub. -/
theorem delegated_errors_propagate_witness :
    ((stubErrInputDetector.fit [] [] 128 20).2 = .error "fit boom") ∧
    ((stubErrInputDetector.detect [] 128).2 = .error "pred boom") ∧
    ((stubErrActExtractor.fit [] [] 128 20).2 = .error "act boom") ∧
    ((stubErrActDetector.fit [] [] 128 20).2 = .error "fit boom") ∧
    ((stubErrActExtractor.detect [] 128).2.2 = .error "act boom") ∧
    ((stubErrActDetector.detect [] 128).2.2 = .error "pred boom") :=
  have h := @delegated_errors_propagate Unit Unit Unit String
  ⟨h.1 stubErrInputDetector [] [] 128 20 "fit boom" rfl,
   h.2.1 stubErrInputDetector [] 128 "pred boom" rfl,
   h.2.2.1 stubErrActExtractor [] [] 128 20 "act boom" rfl,
   h.2.2.2.1 stubErrActDetector [] [] 128 20 [()] "fit boom" rfl rfl,
   h.2.2.2.2.1 stubErrActExtractor [] 128 "act boom" rfl,
   h.2.2.2.2.2 stubErrActDetector [] 128 [()] "pred boom" rfl rfl⟩

/-- C9: neither wrapper holds trainable state of its own, and `detect`
mutates nothing: the post-call `self` equals the pre-call `self`, so the
stored detector reference, classifier reference, and resolved layer name
keep their construction-time values. -/
theorem detect_no_mutation {α β γ ε : Type} :
    (∀ (d : BinaryInputDetector α β ε) (x : List α) (bs : Nat),
      (d.detect x bs).1 = d ∧ (d.detect x bs).1.detector = d.detector) ∧
    (∀ (d : BinaryActivationDetector α β γ ε) (x : List α) (bs : Nat),
      (d.detect x bs).1 = d ∧
      (d.detect x bs).1.detector = d.detector ∧
      (d.detect x bs).1.classifier = d.classifier ∧
      (d.detect x bs).1._layer_name = d._layer_name) :=
  ⟨fun _ _ _ => ⟨rfl, rfl⟩, fun _ _ _ => ⟨rfl, rfl, rfl, rfl⟩⟩

/-- C9 witness: concrete `detect` calls on both stub detectors leave the
wrappers exactly as constructed. -/
theorem detect_no_mutation_witness :
    ((stubInputDetector.detect [()] 128).1 = stubInputDetector ∧
      (stubInputDetector.detect [()] 128).1.detector =
        stubInputDetector.detector) ∧
    ((stubActDetector.detect [()] 128).1 = stubActDetector ∧
      (stubActDetector.detect [()] 128).1.detector =
        stubActDetector.detector ∧
      (stubActDetector.detect [()] 128).1.classifier =
        stubActDetector.classifier ∧
      (stubActDetector.detect [()] 128).1._layer_name =
        stubActDetector._layer_name) :=
  ⟨(@detect_no_mutation Unit Unit Unit String).1 stubInputDetector [()] 128,
   (@detect_no_mutation Unit Unit Unit String).2 stubActDetector [()] 128⟩

/-- C10: on either detector, the implemented decision rule is
`argmax != 0`: `is_adversarial` is the row-wise test that the first-maximum
index is nonzero, for score matrices of any column count, so with more than
two columns any argmax class other than 0 is reported as adversarial, which
coincides with `argmax == 1` only under the two-class precondition. -/
theorem detect_decision_is_argmax_ne_zero {α β γ ε : Type} :
    (∀ (d : BinaryInputDetector α β ε) (x : List α) (bs : Nat) (m : Mat),
      d.detector.predict x bs = .ok m →
      ∃ report, (d.detect x bs).2 =
        .ok (report, m.map (fun r => npArgmaxRow r != 0))) ∧
    (∀ (d : BinaryActivationDetector α β γ ε) (x : List α) (bs : Nat)
        (acts : List β) (m : Mat),
      d.classifier.get_activations x d._layer_name bs = .ok acts →
      d.detector.predict acts bs = .ok m →
      ∃ report, (d.detect x bs).2.2 =
        .ok (report, m.map (fun r => npArgmaxRow r != 0))) := by
  constructor
  · intro d x bs m hp
    exact ⟨[("predictions", m)],
      by simp [BinaryInputDetector.detect, hp, astypeBool_npArgmaxAxis1]⟩
  · intro d x bs acts m ha hp
    exact ⟨[("predictions", m)],
      by simp [BinaryActivationDetector.detect, ha, hp,
        astypeBool_npArgmaxAxis1]⟩

/-- C10 witness: on the three-column score row `[0.1, 0.2, 0.7]` the argmax
is `2`, not `1`, and the sample is still reported adversarial. -/
theorem detect_decision_is_argmax_ne_zero_witness :
    (npArgmaxRow [1/10, 2/10, 7/10] = 2) ∧
    (∃ report, (stubThreeColDetector.detect [()] 128).2 =
      .ok (report, [[(1 : ℚ)/10, 2/10, 7/10]].map
        (fun r => npArgmaxRow r != 0))) ∧
    ((stubThreeColDetector.detect [()] 128).2 =
      .ok ([("predictions", [[1/10, 2/10, 7/10]])], [true])) :=
  ⟨by norm_num [npArgmaxRow, npArgmaxAux],
   (@detect_decision_is_argmax_ne_zero Unit Unit Unit String).1
     stubThreeColDetector [()] 128 [[1/10, 2/10, 7/10]] rfl,
   by
     simp only [stubThreeColDetector, stubClassifier,
       BinaryInputDetector.detect]
     norm_num [astypeBool, npArgmaxAxis1, npArgmaxRow, npArgmaxAux]⟩
